import Mathlib

/-!
Verification of the SWM soil-water model scripts (SWM_ArcGIS.py,
SWM_ArcGIS_multi.py, SWM_Console.py, SWM_Console_multi.py and variants).

The scripts are built on a raster-algebra engine: every arithmetic
operation, comparison and `Con(condition, ifTrue[, ifFalse])` selection is
evaluated cellwise, and a cell may hold the special NoData value.  We embed
a raster cell as `Option ℚ` (NoData = `none`); arithmetic propagates NoData,
`Con` without an else-branch yields NoData where the condition fails, and
division by zero yields NoData.  A raster (`Grid ι`) is a function from an
abstract cell-index type to cells, with all operations pointwise, plus an
explicit finite cell enumeration where a sum over the grid is needed.

The real-valued power `10 ** x` of the host engine (in the Haude PET
formula) is abstracted as an explicit function argument `pow10 : ℚ → ℚ`;
none of the verified properties depend on its values.
-/

/-- A raster cell: a rational value or NoData. -/
abbrev Cell := Option ℚ

/-- Cellwise binary arithmetic: NoData propagates. -/
def cBin (f : ℚ → ℚ → ℚ) : Cell → Cell → Cell
  | some a, some b => some (f a b)
  | _, _ => none

def cAdd : Cell → Cell → Cell := cBin (· + ·)

def cSub : Cell → Cell → Cell := cBin (· - ·)

def cMul : Cell → Cell → Cell := cBin (· * ·)

/-- Cellwise division: division by zero yields NoData, as in the engine. -/
def cDiv : Cell → Cell → Cell
  | some a, some b => if b = 0 then none else some (a / b)
  | _, _ => none

/-- Cellwise integer power (`** 2` in the source). -/
def cPow (c : Cell) (n : ℕ) : Cell := c.map (· ^ n)

/-- Cellwise comparison: NoData if either operand is NoData. -/
def cCmp (f : ℚ → ℚ → Bool) : Cell → Cell → Option Bool
  | some a, some b => some (f a b)
  | _, _ => none

def cEq : Cell → Cell → Option Bool := cCmp (fun a b => a = b)

def cGe : Cell → Cell → Option Bool := cCmp (fun a b => b ≤ a)

def cGt : Cell → Cell → Option Bool := cCmp (fun a b => b < a)

/-- Conditional with an else-branch, `Con(cond, t, e)`: cellwise select; a
NoData condition gives NoData. -/
def con3 (b : Option Bool) (t e : Cell) : Cell :=
  match b with
  | some true => t
  | some false => e
  | none => none

/-- Conditional without an else-branch, `Con(cond, t)`: cells failing the
condition get NoData (ArcGIS Spatial Analyst semantics). -/
def con2 (b : Option Bool) (t : Cell) : Cell :=
  match b with
  | some true => t
  | _ => none

/-! ## Per-cell translations of the script functions

Each definition mirrors one raster expression of the source, evaluated at a
single cell.  Scalar script variables (temperature, humidity, the factors of
the lambda parameter, ...) appear as plain rationals.
-/

/-- Haude PET, `get_pet` (all variants):
`haude_factor * (6.1 * 10 ** ((7.5 * T) / (T + 237.2))) * (1.0 - humidity / 100.0)`.
The `10 ** x` of the engine is the abstract `pow10`. -/
def get_pet_cell (pow10 : ℚ → ℚ) (haude_factor : Cell) (temperature humidity : ℚ) : Cell :=
  cMul (cMul haude_factor (some (6.1 * pow10 ((7.5 * temperature) / (temperature + 237.2)))))
    (some (1.0 - humidity / 100.0))

/-- AET selection, `get_aet` (identical in every variant):
`Con(water == 1, pet, Con(s_pre >= rp, pet, Con(rpwp_dif == 0, 0, ((s_pre - wp) / rpwp_dif) * pet)))`. -/
def get_aet_cell (pet_raster water_raster s_pre_raster rp_raster rpwp_dif_raster wp_raster :
    Cell) : Cell :=
  con3 (cEq water_raster (some 1)) pet_raster
    (con3 (cGe s_pre_raster rp_raster) pet_raster
      (con3 (cEq rpwp_dif_raster (some 0)) (some 0)
        (cMul (cDiv (cSub s_pre_raster wp_raster) rpwp_dif_raster) pet_raster)))

/-- Function `overflow` of SWM_ArcGIS.py / SWM_Console.py.  The condition
tests the parameter `s_pre_raster`, but the value expression reads the
module-level global `s_pre` (passed here explicitly as `g`):
`Con(p + s_pre_raster > fk, p + s_pre - fk, 0)`. -/
def overflow_cell (g p_raster s_pre_raster fk_raster : Cell) : Cell :=
  con3 (cGt (cAdd p_raster s_pre_raster) fk_raster)
    (cSub (cAdd p_raster g) fk_raster) (some 0)

/-- Function `runoff_land` of SWM_ArcGIS.py / SWM_Console.py.  The quadratic
stress term also reads the global `s_pre` (`g`) instead of the parameter:
`Con(water == 0, lambda * ((s_pre - wp) ** 2) + overflow(p, s_pre_raster, fk), 0)`. -/
def runoff_land_cell (g water_raster lambda_param wp_raster p_raster s_pre_raster fk_raster :
    Cell) : Cell :=
  con3 (cEq water_raster (some 0))
    (cAdd (cMul lambda_param (cPow (cSub g wp_raster) 2))
      (overflow_cell g p_raster s_pre_raster fk_raster))
    (some 0)

/-- Function `get_runoff` of SWM_ArcGIS.py / SWM_Console.py:
`runoff_land(...) + water * Con(p > pet, p - pet, 0)`. -/
def get_runoff_cell (g water_raster lambda_param wp_raster p_raster s_pre_raster fk_raster
    pet_raster : Cell) : Cell :=
  cAdd (runoff_land_cell g water_raster lambda_param wp_raster p_raster s_pre_raster fk_raster)
    (cMul water_raster (con3 (cGt p_raster pet_raster) (cSub p_raster pet_raster) (some 0)))

/-- The land component of `get_runoff` in SWM_ArcGIS_multi.py /
SWM_Console_multi.py: `Con(water == 0, lambda * ((s_pre - wp) ** 2) +
Con(p + s_pre > fc, p + s_pre - fc, 0))` — note the outer `Con` has NO
else-branch, so non-land cells get NoData. -/
def r_land_multi_cell (water_raster lambda_param wp_raster p_raster s_pre_raster fc_raster :
    Cell) : Cell :=
  con2 (cEq water_raster (some 0))
    (cAdd (cMul lambda_param (cPow (cSub s_pre_raster wp_raster) 2))
      (con3 (cGt (cAdd p_raster s_pre_raster) fc_raster)
        (cSub (cAdd p_raster s_pre_raster) fc_raster) (some 0)))

/-- Function `get_runoff` of SWM_ArcGIS_multi.py / SWM_Console_multi.py
(land part as above, plus `water * Con(p > pet, p - pet, 0)`). -/
def get_runoff_multi_cell (water_raster lambda_param wp_raster p_raster s_pre_raster fc_raster
    pet_raster : Cell) : Cell :=
  cAdd (r_land_multi_cell water_raster lambda_param wp_raster p_raster s_pre_raster fc_raster)
    (cMul water_raster (con3 (cGt p_raster pet_raster) (cSub p_raster pet_raster) (some 0)))

/-- Water balance, `get_soilwater` (identical in every variant):
`s_pre + p - aet - runoff`. -/
def get_soilwater_cell (s_pre_raster p_raster aet_raster runoff_raster : Cell) : Cell :=
  cSub (cSub (cAdd s_pre_raster p_raster) aet_raster) runoff_raster

/-! ## Grids and the day loop

A raster is a cell-valued function on an abstract index type `ι`; the raster
algebra is pointwise, so each script function lifts its cell translation.
`get_q_m3` needs an actual sum over the raster, so the simulation inputs
carry a finite enumeration `cells : List ι` of the cell indices of the grid
(the counterpart of `arcpy.RasterToNumPyArray`). -/

def Grid (ι : Type) := ι → Cell

/-- One record of the `TempFeuchte` climate table as read by the cursor loop:
`['Tagesid', 'Jahr', 'Monat', 'Tag', 'RelFeu', 'Temp']`.  `temp_raw` is the
stored `Temp` field (tenths of a degree); the loop divides it by 10. -/
structure ClimateRow where
  tagesid : ℕ
  jahr : ℕ
  monat : ℕ
  tag : ℕ
  relFeu : ℚ
  temp_raw : ℚ
deriving Repr, DecidableEq

/-- The static input datasets and external providers shared by all variants:
the base rasters, the monthly Haude-factor rasters, the precipitation
provider (`get_precipitation` treated as an opaque per-day grid source), the
cell size, the cell enumeration, and the `10 ** x` of the engine. -/
structure SwmInputs (ι : Type) where
  haude_dic : ℕ → Grid ι
  fk : Grid ι
  wp : Grid ι
  water : Grid ι
  l_m : Grid ι
  s_init : Grid ι
  cellsize : ℚ
  cells : List ι
  precip : ℕ → Grid ι
  climate : List ClimateRow
  pow10 : ℚ → ℚ

/-- Raster version of `get_pet` (haude_factor is a raster, temperature and
humidity are the scalars of the day). -/
def get_pet_grid {ι : Type} (pow10 : ℚ → ℚ) (haude_factor : Grid ι)
    (temperature humidity : ℚ) : Grid ι :=
  fun i => get_pet_cell pow10 (haude_factor i) temperature humidity

/-- Raster version of `get_aet`. -/
def get_aet_grid {ι : Type} (pet water s_pre rp rpwp_dif wp : Grid ι) : Grid ι :=
  fun i => get_aet_cell (pet i) (water i) (s_pre i) (rp i) (rpwp_dif i) (wp i)

/-- Raster version of `get_runoff` of SWM_ArcGIS.py; `g` is the module-level
global `s_pre` read inside `overflow` and `runoff_land`. -/
def get_runoff_grid {ι : Type} (g water lambda_param wp p s_pre fk pet : Grid ι) : Grid ι :=
  fun i =>
    get_runoff_cell (g i) (water i) (lambda_param i) (wp i) (p i) (s_pre i) (fk i) (pet i)

/-- Raster version of `get_runoff` of SWM_ArcGIS_multi.py. -/
def get_runoff_multi_grid {ι : Type} (water lambda_param wp p s_pre fc pet : Grid ι) : Grid ι :=
  fun i =>
    get_runoff_multi_cell (water i) (lambda_param i) (wp i) (p i) (s_pre i) (fc i) (pet i)

/-- Raster version of `get_soilwater`. -/
def get_soilwater_grid {ι : Type} (s_pre p aet runoff : Grid ι) : Grid ι :=
  fun i => get_soilwater_cell (s_pre i) (p i) (aet i) (runoff i)

/-- Discharge, `get_q_m3`: `RasterToNumPyArray(runoff, nodata_to_value=0)`
replaces NoData cells by 0, then `array.sum() * 0.001 * cellsize ** 2`. -/
def get_q_m3 {ι : Type} (runoff_raster : Grid ι) (cells : List ι) (rastercellsize : ℚ) : ℚ :=
  (cells.map (fun i => (runoff_raster i).getD 0)).sum * 0.001 * rastercellsize ^ 2

/-- The derived static rasters computed once per `(rp_factor, c)` choice:
`rp = fk * rp_factor`, `rpwp_dif = rp - wp`,
`lambda_parameter = c / (L_in_metern * 1000) ** 2`. -/
def rp_grid {ι : Type} (inp : SwmInputs ι) (rp_factor : ℚ) : Grid ι :=
  fun i => cMul (inp.fk i) (some rp_factor)

def rpwp_dif_grid {ι : Type} (inp : SwmInputs ι) (rp_factor : ℚ) : Grid ι :=
  fun i => cSub (rp_grid inp rp_factor i) (inp.wp i)

def lambda_grid {ι : Type} (inp : SwmInputs ι) (c : ℚ) : Grid ι :=
  fun i => cDiv (some c) (cPow (cMul (inp.l_m i) (some 1000)) 2)

/-- One result-table row: the day id (from which `write_to_table` derives
the formatted date string) and the discharge of the day in m³. -/
abbrev ResultRow := ℕ × ℚ

/-- One iteration of the SWM_ArcGIS.py cursor loop (lines 369-391): PET, AET,
precipitation, runoff, discharge, soil water, then `s_pre = s`.  The loop
passes the same raster `s_pre` both as argument and as the global read by
`overflow`/`runoff_land`. -/
def dayStep {ι : Type} (inp : SwmInputs ι) (rp rpwp_dif lambda_parameter : Grid ι)
    (row : ClimateRow) (s_pre : Grid ι) : Grid ι × ResultRow :=
  let temp := row.temp_raw / 10.0
  let pet := get_pet_grid inp.pow10 (inp.haude_dic row.monat) temp row.relFeu
  let aet := get_aet_grid pet inp.water s_pre rp rpwp_dif inp.wp
  let precipitation := inp.precip row.tagesid
  let runoff := get_runoff_grid s_pre inp.water lambda_parameter inp.wp precipitation s_pre
    inp.fk pet
  let runoff_m3 := get_q_m3 runoff inp.cells inp.cellsize
  let s := get_soilwater_grid s_pre precipitation aet runoff
  (s, (row.tagesid, runoff_m3))

/-- The SWM_ArcGIS.py main loop: derive `rp`, `rpwp_dif`, `lambda_parameter`
once, then fold `dayStep` over the climate rows starting from `s0`,
collecting one ResultRow per day.  Returns the final soil water and the
result table. -/
def runSingle {ι : Type} (inp : SwmInputs ι) (rp_factor c : ℚ) (s0 : Grid ι) :
    Grid ι × List ResultRow :=
  inp.climate.foldl
    (fun acc row =>
      let step := dayStep inp (rp_grid inp rp_factor) (rpwp_dif_grid inp rp_factor)
        (lambda_grid inp c) row acc.1
      (step.1, acc.2 ++ [step.2]))
    (s0, [])

/-- One iteration of the SWM_ArcGIS_multi.py inner cursor loop (lines
330-353), using the `get_runoff` of the multi variant. -/
def dayStepMulti {ι : Type} (inp : SwmInputs ι) (rp rpwp_dif lambda_parameter : Grid ι)
    (row : ClimateRow) (s_pre : Grid ι) : Grid ι × ResultRow :=
  let temp := row.temp_raw / 10.0
  let pet := get_pet_grid inp.pow10 (inp.haude_dic row.monat) temp row.relFeu
  let aet := get_aet_grid pet inp.water s_pre rp rpwp_dif inp.wp
  let precipitation := inp.precip row.tagesid
  let runoff := get_runoff_multi_grid inp.water lambda_parameter inp.wp precipitation s_pre
    inp.fk pet
  let runoff_m3 := get_q_m3 runoff inp.cells inp.cellsize
  let s := get_soilwater_grid s_pre precipitation aet runoff
  (s, (row.tagesid, runoff_m3))

/-- One `(rp_factor, c)` combination of the SWM_ArcGIS_multi.py sweep: the
derived statics are recomputed for the pair and the day loop folds over the
climate rows starting from the soil water `s0` it is handed. -/
def runCombo {ι : Type} (inp : SwmInputs ι) (rp_factor c : ℚ) (s0 : Grid ι) :
    Grid ι × List ResultRow :=
  inp.climate.foldl
    (fun acc row =>
      let step := dayStepMulti inp (rp_grid inp rp_factor) (rpwp_dif_grid inp rp_factor)
        (lambda_grid inp c) row acc.1
      (step.1, acc.2 ++ [step.2]))
    (s0, [])

/-- The SWM_ArcGIS_multi.py sweep (lines 294, 316-353): `s_pre = s_init` is
executed once before the nested `rp_factor`/`c` loops, and the running soil
water is threaded through every combination — the loops never reset it.
Each combination contributes its own tagged result table. -/
def sweep {ι : Type} (inp : SwmInputs ι) (rp_factors cs : List ℚ) (s0 : Grid ι) :
    Grid ι × List ((ℚ × ℚ) × List ResultRow) :=
  rp_factors.foldl
    (fun accZ rpf =>
      cs.foldl
        (fun accY cv =>
          let run := runCombo inp rpf cv accY.1
          (run.1, accY.2 ++ [((rpf, cv), run.2)]))
        accZ)
    (s0, [])

/-! ## A concrete one-cell scenario

A single-cell catchment used to evaluate the model at explicit inputs:
field capacity 100 mm, wilting point 20 mm, a land cell, root depth
0.001 m (so `lambda_parameter = c`), initial soil water 100 mm, cell size
1 m, one climate day with a zero Haude factor (so PET = 0) and no
precipitation. -/

def exGrid (q : ℚ) : Grid Unit := fun _ => some q

def exInputs : SwmInputs Unit where
  haude_dic := fun _ => exGrid 0
  fk := exGrid 100
  wp := exGrid 20
  water := exGrid 0
  l_m := exGrid (1 / 1000)
  s_init := exGrid 100
  cellsize := 1
  cells := [()]
  precip := fun _ => exGrid 0
  climate := [⟨20030101, 2003, 1, 1, 50, 0⟩]
  pow10 := fun _ => 0

/-! ## Evaluation lemmas for the cell-level functions -/

/-- Closed-form evaluation of `get_aet_cell` on defined cells. -/
theorem aet_cell_eval (pet w s rp rpwp wpq : ℚ) :
    get_aet_cell (some pet) (some w) (some s) (some rp) (some rpwp) (some wpq) =
      some (if w = 1 then pet else if rp ≤ s then pet else if rpwp = 0 then 0
        else (s - wpq) / rpwp * pet) := by
  unfold get_aet_cell con3 cEq cGe cCmp cDiv cSub cMul cBin
  by_cases h1 : w = 1 <;> by_cases h2 : rp ≤ s <;> by_cases h3 : rpwp = 0 <;>
    simp [h1, h2, h3]

/-- Closed-form evaluation of `overflow_cell` on defined cells. -/
theorem overflow_cell_eval (g p s fk : ℚ) :
    overflow_cell (some g) (some p) (some s) (some fk) =
      some (if fk < p + s then p + g - fk else 0) := by
  unfold overflow_cell con3 cGt cCmp cAdd cSub cBin
  by_cases h : fk < p + s <;> simp [h]

/-- Closed-form evaluation of `runoff_land_cell` on defined cells. -/
theorem runoff_land_cell_eval (g w lam wpq p s fk : ℚ) :
    runoff_land_cell (some g) (some w) (some lam) (some wpq) (some p) (some s) (some fk) =
      some (if w = 0 then lam * (g - wpq) ^ 2 + (if fk < p + s then p + g - fk else 0)
        else 0) := by
  unfold runoff_land_cell con3 cEq cCmp
  rw [overflow_cell_eval]
  by_cases h : w = 0 <;> simp [h, cAdd, cMul, cSub, cPow, cBin]

/-- Closed-form evaluation of `r_land_multi_cell` on defined cells. -/
theorem r_land_multi_cell_eval (w lam wpq p s fc : ℚ) :
    r_land_multi_cell (some w) (some lam) (some wpq) (some p) (some s) (some fc) =
      (if w = 0 then some (lam * (s - wpq) ^ 2 + (if fc < p + s then p + s - fc else 0))
        else none) := by
  unfold r_land_multi_cell con2 con3 cEq cGt cCmp
  by_cases h : w = 0 <;> by_cases h2 : fc < p + s <;>
    simp [h, h2, cAdd, cMul, cSub, cPow, cBin]

/-- Bridge between the conditional form and the max form of an overflow. -/
theorem ite_sub_eq_max (a b : ℚ) : (if b < a then a - b else 0) = max 0 (a - b) := by
  rcases le_or_lt a b with h | h
  · rw [if_neg (not_lt.mpr h), max_eq_left (by linarith)]
  · rw [if_pos h, max_eq_right (by linarith)]

/-- Closed-form evaluation of the water-body runoff term
`water * Con(p > pet, p - pet, 0)` on defined cells. -/
theorem water_term_eval (w p pet : ℚ) :
    cMul (some w) (con3 (cGt (some p) (some pet)) (cSub (some p) (some pet)) (some 0)) =
      some (w * max 0 (p - pet)) := by
  unfold con3 cGt cCmp cSub cMul cBin
  by_cases h : pet < p
  · simp [h, max_eq_right (by linarith : (0:ℚ) ≤ p - pet)]
  · simp [h, max_eq_left (by linarith : p - pet ≤ (0:ℚ))]

/-- Closed-form evaluation of `get_runoff_multi_cell` on defined cells. -/
theorem runoff_multi_cell_eval (w lam wpq p s fc pet : ℚ) :
    get_runoff_multi_cell (some w) (some lam) (some wpq) (some p) (some s) (some fc)
      (some pet) =
      cAdd (if w = 0 then some (lam * (s - wpq) ^ 2 + (if fc < p + s then p + s - fc else 0))
          else none)
        (some (w * max 0 (p - pet))) := by
  unfold get_runoff_multi_cell
  rw [r_land_multi_cell_eval, water_term_eval]

/-- Closed-form evaluation of `get_soilwater_cell` on defined cells. -/
theorem soilwater_cell_eval (s p a r : ℚ) :
    get_soilwater_cell (some s) (some p) (some a) (some r) = some (s + p - a - r) := rfl

/-! ## Evaluation of the one-cell scenario -/

theorem ex_s_init : exInputs.s_init = exGrid 100 := rfl

theorem ex_rp_grid : rp_grid exInputs (17/20) = exGrid 85 := by
  funext i
  norm_num [rp_grid, exInputs, exGrid, cMul, cBin]

theorem ex_rpwp_grid : rpwp_dif_grid exInputs (17/20) = exGrid 65 := by
  funext i
  norm_num [rpwp_dif_grid, rp_grid, exInputs, exGrid, cMul, cSub, cBin]

theorem ex_lambda_grid (cv : ℚ) : lambda_grid exInputs cv = exGrid cv := by
  funext i
  norm_num [lambda_grid, exInputs, exGrid, cMul, cPow, cBin, cDiv]

theorem ex_pet_cell (t h : ℚ) :
    get_pet_cell (fun _ => (0:ℚ)) (some 0) t h = some 0 := by
  unfold get_pet_cell cMul cBin
  simp

theorem ex_aet_cell (sv : ℚ) :
    get_aet_cell (some 0) (some 0) (some sv) (some 85) (some 65) (some 20) = some 0 := by
  rw [aet_cell_eval]
  norm_num

theorem ex_runoff_cell (cv sv : ℚ) :
    get_runoff_multi_cell (some 0) (some cv) (some 20) (some 0) (some sv) (some 100)
      (some 0) = some (cv * (sv - 20) ^ 2 + max 0 (sv - 100)) := by
  rw [runoff_multi_cell_eval]
  norm_num [cAdd, cBin, ite_sub_eq_max]

theorem ex_day (cv sv : ℚ) :
    dayStepMulti exInputs (exGrid 85) (exGrid 65) (exGrid cv)
      ⟨20030101, 2003, 1, 1, 50, 0⟩ (exGrid sv) =
      (exGrid (sv + 0 - 0 - (cv * (sv - 20) ^ 2 + max 0 (sv - 100))),
        (20030101, (cv * (sv - 20) ^ 2 + max 0 (sv - 100)) * 0.001 * 1 ^ 2)) := by
  unfold dayStepMulti get_pet_grid get_aet_grid get_runoff_multi_grid get_soilwater_grid
    get_q_m3
  simp only [exInputs, exGrid]
  simp only [ex_pet_cell, ex_aet_cell, ex_runoff_cell]
  rw [Prod.mk.injEq]
  refine ⟨?_, ?_⟩
  · funext i
    rw [soilwater_cell_eval]
    rfl
  · rw [Prod.mk.injEq]
    refine ⟨rfl, ?_⟩
    simp

theorem ex_combo (cv sv : ℚ) :
    runCombo exInputs (17/20) cv (exGrid sv) =
      (exGrid (sv + 0 - 0 - (cv * (sv - 20) ^ 2 + max 0 (sv - 100))),
        [(20030101, (cv * (sv - 20) ^ 2 + max 0 (sv - 100)) * 0.001 * 1 ^ 2)]) := by
  unfold runCombo
  rw [show exInputs.climate = [⟨20030101, 2003, 1, 1, 50, 0⟩] from rfl]
  rw [ex_rp_grid, ex_rpwp_grid, ex_lambda_grid]
  simp only [List.foldl_cons, List.foldl_nil]
  rw [ex_day]
  simp

/-! ## Claim theorems -/

/-- C1: the spec asserts that each `(rp_factor, c)` combination of a sweep
starts from the externally supplied initial soil water, so an embedded
combination produces the same ResultRow sequence as a standalone run.  The
code never reinitializes `s_pre` inside the sweep loops: in the one-cell
scenario, the sweep over `rp_factor = 0.85` with `c = 1` and then `c = 2`
reports discharge 399424/5 m³ for the second combination, while the same
combination run standalone from `s_init` reports 64/5 m³. -/
theorem sweep_state_leak :
    (sweep exInputs [17/20] [1, 2] exInputs.s_init).2 =
      [((17/20, 1), [(20030101, 32/5)]), ((17/20, 2), [(20030101, 399424/5)])] ∧
    (runCombo exInputs (17/20) 2 exInputs.s_init).2 = [(20030101, 64/5)] ∧
    ((399424 : ℚ)/5 ≠ 64/5) := by
  refine ⟨?_, ?_, by norm_num⟩
  · unfold sweep
    rw [ex_s_init]
    simp only [List.foldl_cons, List.foldl_nil, ex_combo]
    norm_num
  · rw [ex_s_init, ex_combo]
    norm_num

/-- C2: per cell, AET follows the strict four-branch decision tree in
priority order — water cell gives PET; else soil water at or above the
reduction point gives PET; else a zero `rpwp_dif` gives 0; else the linear
stress formula applies.  Earlier branches shadow later ones. -/
theorem aet_decision_tree (pet w s rp rpwp wpq : ℚ) :
    get_aet_cell (some pet) (some w) (some s) (some rp) (some rpwp) (some wpq) =
      some (if w = 1 then pet
        else if rp ≤ s then pet
        else if rpwp = 0 then 0
        else pet * (s - wpq) / rpwp) := by
  rw [aet_cell_eval]
  rcases eq_or_ne w 1 with h1 | h1
  · simp [h1]
  · rcases le_or_lt rp s with h2 | h2
    · simp [h1, h2]
    · rcases eq_or_ne rpwp 0 with h3 | h3
      · simp [h1, h2.not_le, h3]
      · simp [h1, h2.not_le, h3]
        ring

/-- C3: the soil-water update is exactly
`s_pre + precipitation - aet - runoff`, with no clamping to
`[0, field_capacity]`; a negative result is preserved as is. -/
theorem soilwater_mass_balance (s p a r : ℚ) :
    get_soilwater_cell (some s) (some p) (some a) (some r) = some (s + p - a - r) ∧
    get_soilwater_cell (some 0) (some 0) (some 1) (some 1) = some (-2) := by
  refine ⟨rfl, ?_⟩
  rw [soilwater_cell_eval]
  norm_num

/-- C4 counterexample: in the multi variants the land-runoff `Con` has no
else-branch, so on a water cell (`water_mask = 1`) the land component is
NoData, not a defined 0 — and the total runoff of the cell is NoData too,
although the water term alone would be defined. -/
theorem r_land_water_cell_nodata :
    r_land_multi_cell (some 1) (some 1) (some 20) (some 0) (some 50) (some 100) = none ∧
    r_land_multi_cell (some 1) (some 1) (some 20) (some 0) (some 50) (some 100) ≠ some 0 ∧
    get_runoff_multi_cell (some 1) (some 1) (some 20) (some 10) (some 50) (some 100)
      (some 2) = none := by
  rw [r_land_multi_cell_eval, runoff_multi_cell_eval]
  norm_num [cAdd, cBin]
  simp

/-- C4 amended: on land cells the land-runoff component equals
`lambda * (s_pre - wp)^2 + max 0 (p + s_pre - fc)` (with no guard on
`s_pre < wp`); on all other cells it is NoData in the multi variants
(`Con` without else-branch) but a defined 0 in the `runoff_land` of
SWM_ArcGIS.py / SWM_Console.py (stated here with the global `s_pre`
aliased to the argument, as at every call site). -/
theorem land_runoff_characterization (w lam wpq p s fc : ℚ) :
    r_land_multi_cell (some w) (some lam) (some wpq) (some p) (some s) (some fc) =
      (if w = 0 then some (lam * (s - wpq) ^ 2 + max 0 (p + s - fc)) else none) ∧
    runoff_land_cell (some s) (some w) (some lam) (some wpq) (some p) (some s) (some fc) =
      (if w = 0 then some (lam * (s - wpq) ^ 2 + max 0 (p + s - fc)) else some 0) := by
  rw [r_land_multi_cell_eval, runoff_land_cell_eval]
  constructor <;> by_cases h : w = 0 <;> simp [h, ite_sub_eq_max]

/-- C5: total runoff is the sum of the land term and the water term
`water_mask * max 0 (p - pet)` in both `get_runoff` variants; on a water
cell the water term is non-negative, and zero whenever `p ≤ pet`. -/
theorem total_runoff_sum (g w lam wpq p s fk pet : ℚ) :
    (get_runoff_cell (some g) (some w) (some lam) (some wpq) (some p) (some s) (some fk)
        (some pet) =
      cAdd (runoff_land_cell (some g) (some w) (some lam) (some wpq) (some p) (some s)
        (some fk)) (some (w * max 0 (p - pet)))) ∧
    (get_runoff_multi_cell (some w) (some lam) (some wpq) (some p) (some s) (some fk)
        (some pet) =
      cAdd (r_land_multi_cell (some w) (some lam) (some wpq) (some p) (some s) (some fk))
        (some (w * max 0 (p - pet)))) ∧
    (w = 1 → 0 ≤ w * max 0 (p - pet)) ∧
    (w = 1 → p ≤ pet → w * max 0 (p - pet) = 0) := by
  refine ⟨?_, ?_, fun hw => ?_, fun hw hp => ?_⟩
  · unfold get_runoff_cell
    rw [water_term_eval]
  · unfold get_runoff_multi_cell
    rw [water_term_eval]
  · subst hw
    positivity
  · rw [max_eq_left (by linarith)]
    ring

/-- Witness for C5 at a water cell with `p = 5 ≤ pet = 8`. -/
theorem total_runoff_sum_wit :
    (get_runoff_cell (some 30) (some 1) (some 2) (some 20) (some 5) (some 30) (some 100)
        (some 8) =
      cAdd (runoff_land_cell (some 30) (some 1) (some 2) (some 20) (some 5) (some 30)
        (some 100)) (some (1 * max 0 ((5:ℚ) - 8)))) ∧
    (0:ℚ) ≤ 1 * max 0 ((5:ℚ) - 8) ∧ (1:ℚ) * max 0 ((5:ℚ) - 8) = 0 :=
  ⟨(total_runoff_sum 30 1 2 20 5 30 100 8).1,
    (total_runoff_sum 30 1 2 20 5 30 100 8).2.2.1 rfl,
    (total_runoff_sum 30 1 2 20 5 30 100 8).2.2.2 rfl (by norm_num)⟩

/-- C6: the division of the AET stress term is never reached with a zero
divisor — for all defined inputs the AET output is defined (never NoData,
which is what a division by zero would produce), and on the cells where
`rpwp_dif = 0` (with the earlier branches not taken) the result is the
guarded 0. -/
theorem aet_division_guarded (pet w s rp rpwp wpq : ℚ) :
    (get_aet_cell (some pet) (some w) (some s) (some rp) (some rpwp) (some wpq)).isSome =
      true ∧
    (rpwp = 0 → w ≠ 1 → s < rp →
      get_aet_cell (some pet) (some w) (some s) (some rp) (some rpwp) (some wpq) =
        some 0) := by
  rw [aet_cell_eval]
  refine ⟨rfl, fun h0 hw hs => ?_⟩
  rw [if_neg hw, if_neg (not_le.mpr hs), if_pos h0]

/-- Witness for C6 at a land cell with `rpwp_dif = 0` below the reduction
point. -/
theorem aet_division_guarded_wit :
    (get_aet_cell (some 8) (some 0) (some 10) (some 85) (some 0) (some 10)).isSome = true ∧
    get_aet_cell (some 8) (some 0) (some 10) (some 85) (some 0) (some 10) = some 0 :=
  ⟨(aet_division_guarded 8 0 10 85 0 10).1,
    (aet_division_guarded 8 0 10 85 0 10).2 rfl (by norm_num) (by norm_num)⟩

/-- C7: the reported catchment discharge equals the sum over all cells of
the runoff (NoData cells replaced by 0 before summation) times 0.001 times
the square of the cell side length; a NoData cell contributes exactly 0. -/
theorem discharge_m3_contract {ι : Type} (runoff : Grid ι) (cells : List ι) (cs : ℚ)
    (i : ι) (h : runoff i = none) :
    get_q_m3 runoff cells cs =
      (cells.map fun j => (runoff j).getD 0).sum * 0.001 * cs ^ 2 ∧
    get_q_m3 runoff (i :: cells) cs = get_q_m3 runoff cells cs := by
  refine ⟨rfl, ?_⟩
  unfold get_q_m3
  simp [h]

/-- Witness for C7 on a one-cell all-NoData raster. -/
theorem discharge_m3_contract_wit :
    get_q_m3 (fun _ => none : Grid Unit) [] 1 =
      (([] : List Unit).map fun j => ((fun _ => none : Grid Unit) j).getD 0).sum *
        0.001 * 1 ^ 2 ∧
    get_q_m3 (fun _ => none : Grid Unit) [()] 1 = get_q_m3 (fun _ => none : Grid Unit) [] 1 :=
  discharge_m3_contract (fun _ => none) [] 1 () rfl

/-- C8: PET follows the Haude formula
`haude_factor * (6.1 * 10^((7.5 T)/(T + 237.2))) * (1 - humidity/100)` with
`T` equal to the stored `Temp` field divided by 10; the humidity of the
climate record is unconstrained — no bounds are enforced. -/
theorem pet_haude_formula (pow10 : ℚ → ℚ) (hf : ℚ) (row : ClimateRow) :
    get_pet_cell pow10 (some hf) (row.temp_raw / 10) row.relFeu =
      some (hf * (6.1 * pow10 ((7.5 * (row.temp_raw / 10)) / (row.temp_raw / 10 + 237.2))) *
        (1 - row.relFeu / 100)) := by
  unfold get_pet_cell cMul cBin
  norm_num

/-- C9: `overflow` and `runoff_land` read the module-level global `s_pre`
(here `g`) in their value expressions while the overflow condition tests
the parameter; under the aliasing precondition `g = s` the documented
land-runoff formula of the argument holds, but with `g ≠ s` the same
argument can yield different results (conjuncts two and three: argument 5
with globals 0 and 5), and the overflow output switches on the parameter
while its value is computed from the global (conjuncts four and five). -/
theorem runoff_land_reads_global (g w lam wpq p s fk : ℚ) (h : g = s) :
    (runoff_land_cell (some g) (some w) (some lam) (some wpq) (some p) (some s) (some fk) =
      if w = 0 then some (lam * (s - wpq) ^ 2 + max 0 (p + s - fk)) else some 0) ∧
    runoff_land_cell (some 0) (some 0) (some 1) (some 0) (some 0) (some 5) (some 100) =
      some 0 ∧
    runoff_land_cell (some 5) (some 0) (some 1) (some 0) (some 0) (some 5) (some 100) =
      some 25 ∧
    overflow_cell (some 0) (some 96) (some 5) (some 100) = some (-4) ∧
    overflow_cell (some 0) (some 96) (some 4) (some 100) = some 0 := by
  subst h
  refine ⟨?_, ?_, ?_, ?_, ?_⟩
  · rw [runoff_land_cell_eval]
    by_cases hw : w = 0 <;> simp [hw, ite_sub_eq_max]
  · rw [runoff_land_cell_eval]
    norm_num
  · rw [runoff_land_cell_eval]
    norm_num
  · rw [overflow_cell_eval]
    norm_num
  · rw [overflow_cell_eval]
    norm_num

/-- Witness for C9 with the global aliased to the argument (`g = s = 5`). -/
theorem runoff_land_reads_global_wit :
    (runoff_land_cell (some 5) (some 0) (some 1) (some 0) (some 0) (some 5) (some 100) =
      if (0:ℚ) = 0 then some ((1:ℚ) * ((5:ℚ) - 0) ^ 2 + max 0 ((0:ℚ) + 5 - 100))
      else some 0) ∧
    runoff_land_cell (some 0) (some 0) (some 1) (some 0) (some 0) (some 5) (some 100) =
      some 0 ∧
    runoff_land_cell (some 5) (some 0) (some 1) (some 0) (some 0) (some 5) (some 100) =
      some 25 ∧
    overflow_cell (some 0) (some 96) (some 5) (some 100) = some (-4) ∧
    overflow_cell (some 0) (some 96) (some 4) (some 100) = some 0 :=
  runoff_land_reads_global 5 0 1 0 0 5 100 rfl

/-- C10: the day loop is deterministic — two runs with equal static inputs,
equal initial soil water and the same climate rows in the same order
produce equal ResultRow sequences (and equal final soil water). -/
theorem runSingle_deterministic {ι : Type} (inp inp2 : SwmInputs ι) (rp_f c : ℚ)
    (s0 s02 : Grid ι) (hinp : inp = inp2) (hs : s0 = s02) :
    runSingle inp rp_f c s0 = runSingle inp2 rp_f c s02 := by
  subst hinp
  subst hs
  rfl

/-- Witness for C10 on the one-cell scenario. -/
theorem runSingle_deterministic_wit :
    runSingle exInputs (17/20) 150 exInputs.s_init =
      runSingle exInputs (17/20) 150 exInputs.s_init :=
  runSingle_deterministic exInputs exInputs (17/20) 150 exInputs.s_init exInputs.s_init
    rfl rfl
